import Mathlib

/-!
Shallow embedding of the AGV Fleet Commander core (Python sources under
`src/domain` and `src/adapters`) and verification of the specification
claims about it.  Python floats are modelled as real numbers, `datetime`
values as abstract natural-number timestamps, repositories as functions
from identifier strings to optional entities, and fallible operations as
`Except` values.
-/

namespace AGVFleet

/-- Timestamps (`datetime` values) are abstracted to naturals. -/
abbrev Timestamp := Nat

/-- `AGVStatus` enum from `src/domain/entities.py`. -/
inductive AGVStatus where
  | IDLE
  | MOVING
  | TRANSPORTING
  | CHARGING
  | MAINTENANCE
deriving DecidableEq

/-- `TaskPriority` enum from `src/domain/entities.py`. -/
inductive TaskPriority where
  | LOW
  | MEDIUM
  | HIGH
  | URGENT
deriving DecidableEq

/-- `Position` dataclass from `src/domain/entities.py`. -/
structure Position where
  x : ℝ
  y : ℝ
  zone : String := ""

/-- `Position.distance_to`: Euclidean distance,
`((self.x - other.x) ** 2 + (self.y - other.y) ** 2) ** 0.5`. -/
noncomputable def Position.distance_to (p other : Position) : ℝ :=
  Real.sqrt ((p.x - other.x) ^ 2 + (p.y - other.y) ^ 2)

/-- `AGV` dataclass from `src/domain/entities.py`.  `battery_level` is
declared `int` but the simulator assigns float values to it, so it is a
real number here. -/
structure AGV where
  agv_id : String
  name : String
  position : Position
  battery_level : ℝ
  status : AGVStatus
  current_task_id : Option String := none
  max_speed : ℝ := 20.0
  load_capacity : ℝ := 2000.0
  last_update : Timestamp := 0

/-- `AGV.is_available`: `status == IDLE and battery_level > 20 and
current_task_id is None`. -/
def AGV.is_available (a : AGV) : Prop :=
  a.status = AGVStatus.IDLE ∧ a.battery_level > 20 ∧ a.current_task_id = none

/-- `AGV.needs_charging`: `battery_level < 30`. -/
def AGV.needs_charging (a : AGV) : Prop :=
  a.battery_level < 30

/-- `AGV.can_reach`: `battery_needed = (distance / 100) * 1`;
`battery_level >= battery_needed + 10`. -/
noncomputable def AGV.can_reach (a : AGV) (destination : Position) : Prop :=
  a.battery_level ≥ a.position.distance_to destination / 100 * 1 + 10

/-- `Task` dataclass from `src/domain/entities.py`.  `estimated_duration`
is stored as given at construction (its derived default is irrelevant to
the claims). -/
structure Task where
  task_id : String
  description : String
  origin : Position
  destination : Position
  priority : TaskPriority
  container_id : Option String := none
  assigned_agv_id : Option String := none
  created_at : Timestamp := 0
  started_at : Option Timestamp := none
  completed_at : Option Timestamp := none
  estimated_duration : ℝ := 0

/-- `Task.is_completed`: `completed_at is not None`. -/
def Task.is_completed (t : Task) : Prop :=
  t.completed_at ≠ none

/-- `Route` dataclass from `src/domain/entities.py`.  `fuel_consumption`
has no default value in the Python dataclass, so it is a required
constructor argument. -/
structure Route where
  route_id : String
  agv_id : String
  task_id : String
  waypoints : List Position
  total_distance : ℝ
  estimated_time : ℝ
  fuel_consumption : ℝ
  created_at : Option Timestamp := none

/-- `FleetMetrics` dataclass from `src/domain/entities.py`.  The count
fields are Python ints holding collection sizes, modelled as naturals. -/
structure FleetMetrics where
  total_agvs : ℕ
  active_agvs : ℕ
  idle_agvs : ℕ
  charging_agvs : ℕ
  pending_tasks : ℕ
  completed_tasks : ℕ
  average_battery : ℝ
  fleet_efficiency : ℝ
  timestamp : Timestamp := 0

/-- `FleetMetrics.calculate_efficiency`:
`0.0` when `total_agvs == 0`, else
`(active_agvs / total_agvs * 0.7 + average_battery / 100 * 0.3) * 100`. -/
noncomputable def FleetMetrics.calculate_efficiency (m : FleetMetrics) : ℝ :=
  if m.total_agvs = 0 then 0
  else ((m.active_agvs : ℝ) / (m.total_agvs : ℝ) * 0.7
        + m.average_battery / 100 * 0.3) * 100

/-- Concrete metrics snapshot: one AGV, active, average battery 100. -/
def metricsCounterC1 : FleetMetrics :=
  { total_agvs := 1, active_agvs := 1, idle_agvs := 0, charging_agvs := 0
    pending_tasks := 0, completed_tasks := 0
    average_battery := 100, fleet_efficiency := 0 }

/-- C1 counterexample: with `total_agvs = 1`, `active_agvs = 1` and
`average_battery = 100`, the code computes efficiency 100, while the
claimed formula `0.7 * (active/total) + 0.3 * (avg/100)` gives 1, so the
result neither equals the claimed formula nor lies in `[0, 1]`. -/
theorem c1_efficiency_counterexample :
    metricsCounterC1.calculate_efficiency = 100 ∧
    (0.7 * ((1 : ℝ) / 1) + 0.3 * ((100 : ℝ) / 100)) = 1 ∧
    (100 : ℝ) ≠ 1 ∧ ¬ ((100 : ℝ) ≤ 1) := by
  refine ⟨?_, by norm_num, by norm_num, by norm_num⟩
  simp only [FleetMetrics.calculate_efficiency, metricsCounterC1]
  norm_num

/-- C1 (amended): `calculate_efficiency` returns 0 when `total_agvs = 0`
and otherwise `100 * (0.7 * active/total + 0.3 * avg/100)`; whenever
`average_battery ∈ [0, 100]` and `active_agvs ≤ total_agvs` the result
lies in `[0, 100]`. -/
theorem c1_efficiency_amended (m : FleetMetrics)
    (h0 : 0 ≤ m.average_battery) (h100 : m.average_battery ≤ 100)
    (hact : m.active_agvs ≤ m.total_agvs) :
    (m.total_agvs = 0 → m.calculate_efficiency = 0) ∧
    (m.total_agvs ≠ 0 →
      m.calculate_efficiency
        = 100 * (0.7 * ((m.active_agvs : ℝ) / (m.total_agvs : ℝ))
                 + 0.3 * (m.average_battery / 100))) ∧
    0 ≤ m.calculate_efficiency ∧ m.calculate_efficiency ≤ 100 := by
  unfold FleetMetrics.calculate_efficiency
  by_cases hz : m.total_agvs = 0
  · simp [hz]
  · have htot : (0 : ℝ) < (m.total_agvs : ℝ) := by
      exact_mod_cast Nat.pos_of_ne_zero hz
    have hfrac0 : (0 : ℝ) ≤ (m.active_agvs : ℝ) / (m.total_agvs : ℝ) :=
      div_nonneg (by positivity) htot.le
    have hfrac1 : (m.active_agvs : ℝ) / (m.total_agvs : ℝ) ≤ 1 := by
      rw [div_le_one htot]
      exact_mod_cast hact
    refine ⟨fun h => absurd h hz, fun _ => by rw [if_neg hz]; ring, ?_, ?_⟩
    · rw [if_neg hz]
      have : (0 : ℝ) ≤ m.average_battery / 100 := by positivity
      nlinarith
    · rw [if_neg hz]
      have hb : m.average_battery / 100 ≤ 1 := by linarith
      nlinarith

/-- C1 witness: the amended statement instantiated at a concrete
snapshot (2 of 4 AGVs active, average battery 50). -/
theorem c1_efficiency_witness :
    (0 : ℝ) ≤ (50 : ℝ) ∧ (50 : ℝ) ≤ 100 ∧ 2 ≤ 4 ∧
    0 ≤ (FleetMetrics.calculate_efficiency
          { total_agvs := 4, active_agvs := 2, idle_agvs := 1,
            charging_agvs := 1, pending_tasks := 0, completed_tasks := 0,
            average_battery := 50, fleet_efficiency := 0 }) :=
  ⟨by norm_num, by norm_num, by norm_num,
    (c1_efficiency_amended _ (by norm_num) (by norm_num) (by norm_num)).2.2.1⟩

/-- AGV with battery 25 sitting at the map origin. -/
def agvBattery25 : AGV :=
  { agv_id := "AGV-C8", name := "LowBat", position := { x := 0, y := 0 },
    battery_level := 25, status := AGVStatus.IDLE }

/-- A destination 5000 distance units away from the map origin. -/
def positionFar : Position := { x := 5000, y := 0 }

/-- C8: `can_reach` holds exactly when the battery level is at least the
distance to the destination divided by 100 plus a 10-point margin; an AGV
with battery 25 cannot reach a destination 5000 units away. -/
theorem c8_can_reach :
    (∀ (a : AGV) (dest : Position),
      a.can_reach dest ↔
        a.battery_level ≥ a.position.distance_to dest / 100 + 10) ∧
    ¬ agvBattery25.can_reach positionFar := by
  constructor
  · intro a dest
    unfold AGV.can_reach
    rw [mul_one]
  · unfold AGV.can_reach Position.distance_to
    simp only [agvBattery25, positionFar]
    rw [show ((0 : ℝ) - 5000) ^ 2 + ((0 : ℝ) - 0) ^ 2 = 5000 ^ 2 by norm_num,
      Real.sqrt_sq (by norm_num)]
    norm_num

/-- C8 witness: the characterization applied to a fully charged AGV whose
destination is at distance 0. -/
theorem c8_can_reach_witness :
    ({ agv_id := "AGV-W", name := "W", position := { x := 0, y := 0 },
       battery_level := 100, status := AGVStatus.IDLE } : AGV).can_reach
      { x := 0, y := 0 } := by
  refine (c8_can_reach.1 _ _).mpr ?_
  unfold Position.distance_to
  norm_num

/-- Insight `category` values used by `generate_fleet_insights`. -/
inductive InsightCategory where
  | EFFICIENCY
  | PERFORMANCE
  | MAINTENANCE
  | STRATEGY
  | ALERT
deriving DecidableEq

/-- Insight `impact` values used by `generate_fleet_insights`. -/
inductive InsightImpact where
  | LOW
  | MEDIUM
  | HIGH
  | CRITICAL
deriving DecidableEq

/-- One insight dict produced by `OpenAIAnalytics.generate_fleet_insights`
(`src/adapters/openai_adapter.py`).  The dynamically formatted
`description` and `metrics` entries are elided; the discriminating
fields (`category`, `title`, `impact`, `recommendation`, `priority`) are
kept. -/
structure Insight where
  category : InsightCategory
  title : String
  impact : InsightImpact
  recommendation : String
  priority : ℕ

/-- The EFFICIENCY insight appended when `fleet_efficiency < 0.7`. -/
def efficiencyInsight : Insight :=
  { category := InsightCategory.EFFICIENCY
    title := "Eficiencia de flota por debajo del objetivo"
    impact := InsightImpact.MEDIUM
    recommendation := "Revisar asignación de tareas y optimizar rutas"
    priority := 2 }

/-- The ALERT insight appended when `average_battery < 50`. -/
def batteryInsight : Insight :=
  { category := InsightCategory.ALERT
    title := "Nivel promedio de batería bajo"
    impact := InsightImpact.HIGH
    recommendation := "Implementar ciclos de carga más frecuentes"
    priority := 1 }

open Classical in
/-- Fallback branch of `OpenAIAnalytics.generate_fleet_insights`: the
`fleet_data` argument carries the `FleetMetrics.__dict__` under its
`metrics` key (absent key modelled as `none`); one EFFICIENCY/MEDIUM
insight is appended when `fleet_efficiency < 0.7` and one ALERT/HIGH
insight when `average_battery < 50`. -/
noncomputable def generate_fleet_insights_fallback :
    Option FleetMetrics → List Insight
  | none => []
  | some m =>
      (if m.fleet_efficiency < 0.7 then [efficiencyInsight] else [])
        ++ (if m.average_battery < 50 then [batteryInsight] else [])

/-- Metrics of spec Scenario E: average battery 40, efficiency 0.5. -/
def metricsScenarioE : FleetMetrics :=
  { total_agvs := 4, active_agvs := 1, idle_agvs := 2, charging_agvs := 1
    pending_tasks := 0, completed_tasks := 0
    average_battery := 40, fleet_efficiency := 0.5 }

/-- C9: the insight fallback emits an EFFICIENCY/MEDIUM/priority-2
insight exactly when `fleet_efficiency < 0.7`, an ALERT/HIGH/priority-1
insight exactly when `average_battery < 50`, and nothing else; the
Scenario E metrics produce exactly those two insights. -/
theorem c9_insight_fallback :
    (∀ m : FleetMetrics,
      ((efficiencyInsight ∈ generate_fleet_insights_fallback (some m)) ↔
        m.fleet_efficiency < 0.7) ∧
      ((batteryInsight ∈ generate_fleet_insights_fallback (some m)) ↔
        m.average_battery < 50) ∧
      (∀ i ∈ generate_fleet_insights_fallback (some m),
        i = efficiencyInsight ∨ i = batteryInsight)) ∧
    generate_fleet_insights_fallback (some metricsScenarioE)
      = [efficiencyInsight, batteryInsight] ∧
    efficiencyInsight.category = InsightCategory.EFFICIENCY ∧
    efficiencyInsight.impact = InsightImpact.MEDIUM ∧
    efficiencyInsight.priority = 2 ∧
    batteryInsight.category = InsightCategory.ALERT ∧
    batteryInsight.impact = InsightImpact.HIGH ∧
    batteryInsight.priority = 1 := by
  have hne : efficiencyInsight ≠ batteryInsight := by
    intro h
    exact absurd (congrArg Insight.priority h) (by simp [efficiencyInsight, batteryInsight])
  refine ⟨fun m => ⟨?_, ?_, ?_⟩, ?_, rfl, rfl, rfl, rfl, rfl, rfl⟩
  · simp only [generate_fleet_insights_fallback]
    split_ifs with h1 h2 <;>
      simp [h1, hne, *]
  · simp only [generate_fleet_insights_fallback]
    split_ifs with h1 h2 <;>
      simp [Ne.symm hne, *]
  · intro i hi
    simp only [generate_fleet_insights_fallback] at hi
    rcases List.mem_append.mp hi with h | h <;> split_ifs at h <;> simp_all
  · simp only [generate_fleet_insights_fallback]
    rw [if_pos (by simp only [metricsScenarioE]; norm_num),
      if_pos (by simp only [metricsScenarioE]; norm_num)]
    rfl

/-- C9 witness: the characterization applied at the Scenario E metrics,
discharging its comparison premises. -/
theorem c9_insight_fallback_witness :
    efficiencyInsight ∈ generate_fleet_insights_fallback (some metricsScenarioE) :=
  (c9_insight_fallback.1 metricsScenarioE).1.mpr
    (by simp only [metricsScenarioE]; norm_num)

/-- Python runtime errors surfaced by the embedded code. -/
inductive PyError where
  | attributeError
  | typeError
deriving DecidableEq

/-- Keyword arguments of a `Route(...)` constructor call.  A `none` field
is an argument the call site does not pass. -/
structure RouteInitArgs where
  route_id : Option String := none
  agv_id : Option String := none
  task_id : Option String := none
  waypoints : Option (List Position) := none
  total_distance : Option ℝ := none
  estimated_time : Option ℝ := none
  fuel_consumption : Option ℝ := none
  created_at : Option Timestamp := none

/-- Semantics of calling the generated `Route.__init__`: every dataclass
field without a default (`route_id` … `fuel_consumption`) must be passed,
otherwise Python raises `TypeError`; `created_at` defaults to `None`. -/
def routeInit (args : RouteInitArgs) : Except PyError Route :=
  match args.route_id, args.agv_id, args.task_id, args.waypoints,
      args.total_distance, args.estimated_time, args.fuel_consumption with
  | some rid, some aid, some tid, some wps, some td, some et, some fc =>
      Except.ok { route_id := rid, agv_id := aid, task_id := tid,
                  waypoints := wps, total_distance := td,
                  estimated_time := et, fuel_consumption := fc,
                  created_at := args.created_at }
  | _, _, _, _, _, _, _ => Except.error PyError.typeError

/-- `OpenAIRouteOptimizer._create_fallback_route`
(`src/adapters/openai_adapter.py`): builds the 3-point direct route and
calls `Route(route_id=…, agv_id=…, task_id=…, waypoints=…,
estimated_time=…, total_distance=…, created_at=…)` — without passing the
required `fuel_consumption` argument. -/
noncomputable def create_fallback_route (agv : AGV) (task : Task)
    (now : Timestamp) : Except PyError Route :=
  let waypoints := [agv.position, task.origin, task.destination]
  let total_distance := agv.position.distance_to task.origin
    + task.origin.distance_to task.destination
  let estimated_time := total_distance / 1000 / 20 * 60
  routeInit
    { route_id := some ("FALLBACK_" ++ agv.agv_id ++ "_" ++ task.task_id)
      agv_id := some agv.agv_id
      task_id := some task.task_id
      waypoints := some waypoints
      estimated_time := some estimated_time
      total_distance := some total_distance
      created_at := some now }

/-- C4 (code bug): every call of `_create_fallback_route` raises
`TypeError`, because the `Route` dataclass requires a `fuel_consumption`
argument that the call never passes; no 3-point route is ever returned. -/
theorem c4_fallback_route_type_error (agv : AGV) (task : Task)
    (now : Timestamp) :
    create_fallback_route agv task now = Except.error PyError.typeError := by
  rfl

open Classical in
/-- Per-AGV body of `SimulationDataUpdater.simulate_agv_movement`
(`src/adapters/data_adapter.py`).  `taskLookup` is the repository
`get_task_by_id`, `drain` the `random.uniform(0.1, 0.3)` draw, `now` the
tick time (stamped by `update_agv`).  Returns the updated AGV and, when
the AGV arrives, the completed task written back via `update_task`. -/
noncomputable def simulate_agv_movement_step (agv : AGV)
    (taskLookup : String → Option Task) (drain : ℝ) (now : Timestamp) :
    AGV × Option Task :=
  if agv.status = AGVStatus.MOVING ∨ agv.status = AGVStatus.TRANSPORTING then
    match agv.current_task_id with
    | some tid =>
      match taskLookup tid with
      | some task =>
        let dx := task.destination.x - agv.position.x
        let dy := task.destination.y - agv.position.y
        let distance := Real.sqrt (dx ^ 2 + dy ^ 2)
        if distance > 5 then
          let move_distance := min 10 distance
          let factor := move_distance / distance
          ({ agv with
              position := { agv.position with
                x := agv.position.x + dx * factor
                y := agv.position.y + dy * factor }
              battery_level := max 0 (agv.battery_level - drain)
              last_update := now }, none)
        else
          ({ agv with
              position := { x := task.destination.x, y := task.destination.y }
              status := AGVStatus.IDLE
              current_task_id := none
              last_update := now },
            some { task with completed_at := some now })
      | none => ({ agv with last_update := now }, none)
    | none => ({ agv with last_update := now }, none)
  else (agv, none)

open Classical in
/-- Per-AGV body of `SimulationDataUpdater.simulate_battery_changes`
(`src/adapters/data_adapter.py`).  `gain` is the `random.uniform(2, 5)`
charging draw, `trickle` the `random.uniform(0.01, 0.05)` idle draw, and
`coin` the `random.random()` draw compared against 0.3. -/
noncomputable def simulate_battery_changes_step (agv : AGV)
    (gain trickle coin : ℝ) (now : Timestamp) : AGV :=
  if agv.status = AGVStatus.CHARGING then
    let b := min 100 (agv.battery_level + gain)
    if b ≥ 90 then
      { agv with battery_level := b, status := AGVStatus.IDLE
                 last_update := now }
    else
      { agv with battery_level := b, last_update := now }
  else if agv.status = AGVStatus.IDLE then
    let b := max 0 (agv.battery_level - trickle)
    if b < 20 ∧ coin < 0.3 then
      { agv with battery_level := b, status := AGVStatus.CHARGING
                 last_update := now }
    else
      { agv with battery_level := b, last_update := now }
  else agv

/-- C5: when a MOVING/TRANSPORTING AGV whose current task resolves is
within 5 units of the task destination, the movement tick snaps its
position to the destination (exactly, given the program-wide invariant
that positions carry no zone label), sets it IDLE, clears its task and
stamps the task completed; and in general, whenever the movement tick
emits a completed task, the updated AGV sits exactly at that task's
destination. -/
theorem c5_arrival_snap
    (agv : AGV) (task : Task) (tid : String)
    (lookup : String → Option Task) (drain : ℝ) (now : Timestamp)
    (hst : agv.status = AGVStatus.MOVING ∨ agv.status = AGVStatus.TRANSPORTING)
    (htid : agv.current_task_id = some tid)
    (hlook : lookup tid = some task)
    (hnear : agv.position.distance_to task.destination ≤ 5) :
    ((simulate_agv_movement_step agv lookup drain now).1.position.x
        = task.destination.x
      ∧ (simulate_agv_movement_step agv lookup drain now).1.position.y
        = task.destination.y
      ∧ (task.destination.zone = "" →
          (simulate_agv_movement_step agv lookup drain now).1.position
            = task.destination)
      ∧ (simulate_agv_movement_step agv lookup drain now).1.status
        = AGVStatus.IDLE
      ∧ (simulate_agv_movement_step agv lookup drain now).1.current_task_id
        = none
      ∧ (simulate_agv_movement_step agv lookup drain now).2
        = some { task with completed_at := some now }) ∧
    (∀ (a : AGV) (lk : String → Option Task) (dr : ℝ) (n : Timestamp)
        (a2 : AGV) (t2 : Task),
      simulate_agv_movement_step a lk dr n = (a2, some t2) →
      a2.position.x = t2.destination.x ∧ a2.position.y = t2.destination.y
        ∧ t2.completed_at = some n) := by
  constructor
  · have hsq : Real.sqrt ((task.destination.x - agv.position.x) ^ 2
        + (task.destination.y - agv.position.y) ^ 2) ≤ 5 := by
      unfold Position.distance_to at hnear
      rw [show (task.destination.x - agv.position.x) ^ 2
            + (task.destination.y - agv.position.y) ^ 2
          = (agv.position.x - task.destination.x) ^ 2
            + (agv.position.y - task.destination.y) ^ 2 by ring]
      exact hnear
    have hstep : simulate_agv_movement_step agv lookup drain now
        = ({ agv with
              position := { x := task.destination.x, y := task.destination.y }
              status := AGVStatus.IDLE
              current_task_id := none
              last_update := now },
            some { task with completed_at := some now }) := by
      unfold simulate_agv_movement_step
      rw [if_pos hst]
      simp only [htid, hlook]
      rw [if_neg (not_lt.mpr hsq)]
    rw [hstep]
    refine ⟨rfl, rfl, ?_, rfl, rfl, rfl⟩
    intro hz
    show ({ x := task.destination.x, y := task.destination.y } : Position)
      = task.destination
    rw [← hz]
  · intro a lk dr n a2 t2 h
    unfold simulate_agv_movement_step at h
    split at h
    · split at h
      · split at h
        · simp only [] at h
          split at h
          · exact absurd (congrArg Prod.snd h) (by simp)
          · rw [Prod.mk.injEq] at h
            obtain ⟨ha, ht⟩ := h
            obtain rfl : _ = t2 := Option.some.inj ht
            exact ⟨(congrArg (fun z => z.position.x) ha).symm ▸ rfl,
              (congrArg (fun z => z.position.y) ha).symm ▸ rfl, rfl⟩
        · exact absurd (congrArg Prod.snd h) (by simp)
      · exact absurd (congrArg Prod.snd h) (by simp)
    · exact absurd (congrArg Prod.snd h) (by simp)

/-- Concrete MOVING AGV 5 units away from its task destination. -/
def agvArriving : AGV :=
  { agv_id := "AGV-W5", name := "Snap", position := { x := 0, y := 0 },
    battery_level := 80, status := AGVStatus.MOVING,
    current_task_id := some "TSK-W5" }

/-- The task `agvArriving` is carrying out; destination 5 units away. -/
def taskArriving : Task :=
  { task_id := "TSK-W5", description := "d", origin := { x := 0, y := 0 },
    destination := { x := 3, y := 4 }, priority := TaskPriority.HIGH }

/-- Task repository holding exactly `taskArriving`. -/
def lookupArriving : String → Option Task :=
  fun s => if s = "TSK-W5" then some taskArriving else none

/-- C5 witness: the snap behaviour observed on `agvArriving`. -/
theorem c5_arrival_snap_witness :
    (simulate_agv_movement_step agvArriving lookupArriving 0.2 9).1.status
      = AGVStatus.IDLE ∧
    (simulate_agv_movement_step agvArriving lookupArriving 0.2 9).1.position
      = taskArriving.destination ∧
    (simulate_agv_movement_step agvArriving lookupArriving 0.2 9).2
      = some { taskArriving with completed_at := some 9 } := by
  have hdist : Position.distance_to agvArriving.position
      taskArriving.destination ≤ 5 := by
    unfold Position.distance_to
    simp only [agvArriving, taskArriving]
    rw [show ((0 : ℝ) - 3) ^ 2 + ((0 : ℝ) - 4) ^ 2 = 5 ^ 2 by norm_num,
      Real.sqrt_sq (by norm_num)]
  have h := c5_arrival_snap agvArriving taskArriving ("TSK-W5") lookupArriving
    0.2 9 (Or.inl rfl) rfl (by unfold lookupArriving; rw [if_pos rfl]) hdist
  exact ⟨h.1.2.2.2.1, h.1.2.2.1 rfl, h.1.2.2.2.2.2⟩

/-- C6: starting from a battery level in `[0, 100]`, both the movement
tick (drain `uniform(0.1, 0.3)`) and the battery tick (charging gain
`uniform(2, 5)`, idle trickle `uniform(0.01, 0.05)`, idle-to-charging
coin) leave the battery level in `[0, 100]`. -/
theorem c6_battery_bounds
    (agv : AGV) (lookup : String → Option Task)
    (drain gain trickle coin : ℝ) (now : Timestamp)
    (hb0 : 0 ≤ agv.battery_level) (hb1 : agv.battery_level ≤ 100)
    (hd0 : 0.1 ≤ drain) (hd1 : drain ≤ 0.3)
    (hg0 : 2 ≤ gain) (hg1 : gain ≤ 5)
    (ht0 : 0.01 ≤ trickle) (ht1 : trickle ≤ 0.05) :
    (0 ≤ (simulate_agv_movement_step agv lookup drain now).1.battery_level
      ∧ (simulate_agv_movement_step agv lookup drain now).1.battery_level
        ≤ 100) ∧
    (0 ≤ (simulate_battery_changes_step agv gain trickle coin now).battery_level
      ∧ (simulate_battery_changes_step agv gain trickle coin now).battery_level
        ≤ 100) := by
  constructor
  · unfold simulate_agv_movement_step
    simp only []
    repeat' split
    all_goals
      refine ⟨?_, ?_⟩ <;>
        first
          | exact hb0
          | exact hb1
          | exact le_max_left 0 _
          | exact max_le (by norm_num) (by linarith)
  · unfold simulate_battery_changes_step
    simp only []
    repeat' split
    all_goals
      refine ⟨?_, ?_⟩ <;>
        first
          | exact hb0
          | exact hb1
          | exact le_max_left 0 _
          | exact max_le (by norm_num) (by linarith)
          | exact min_le_left 100 _
          | exact le_min (by norm_num) (by linarith)

/-- C6 witness: the bounds observed at `agvArriving` (battery 80) with
drain 0.2, gain 3, trickle 0.02 and coin 0.5. -/
theorem c6_battery_bounds_witness :
    (0 : ℝ) ≤ 80 ∧ (80 : ℝ) ≤ 100 ∧
    0 ≤ (simulate_agv_movement_step agvArriving lookupArriving 0.2 9).1.battery_level ∧
    (simulate_battery_changes_step agvArriving 3 0.02 0.5 4).battery_level ≤ 100 := by
  have h := c6_battery_bounds agvArriving lookupArriving 0.2 3 0.02 0.5 9
    (by norm_num [agvArriving]) (by norm_num [agvArriving])
    (by norm_num) (by norm_num) (by norm_num) (by norm_num)
    (by norm_num) (by norm_num)
  exact ⟨by norm_num, by norm_num, h.1.1, h.2.2⟩

open Classical in
/-- Python `min(iterable, key=f)` semantics: scan the list keeping the
current best, replacing it only on a strictly smaller key, so the first
element attaining the minimum wins. -/
noncomputable def pyMinBy (f : Task → ℝ) : Task → List Task → Task
  | best, [] => best
  | best, t :: ts => if f t < f best then pyMinBy f t ts else pyMinBy f best ts

open Classical in
/-- Python `list.remove(x)` semantics: drop the first element equal to
`x` (no-op when absent, which cannot happen at the call site). -/
noncomputable def pyRemove : List Task → Task → List Task
  | [], _ => []
  | t :: ts, x => if t = x then ts else t :: pyRemove ts x

open Classical in
/-- Fallback branch of `OpenAIAnalytics.recommend_task_assignment`
(`src/adapters/openai_adapter.py`): iterate the available AGVs in order;
for each AGV with `battery_level > 30` while tasks remain, assign the
closest remaining task (`min` by distance from the AGV position to the
task origin) and remove it from the pool.  The returned insertion-ordered
dict is modelled as a list of `(agv_id, task_id)` pairs. -/
noncomputable def recommend_task_assignment_fallback :
    List AGV → List Task → List (String × String)
  | [], _ => []
  | _ :: rest, [] => recommend_task_assignment_fallback rest []
  | a :: rest, t :: ts =>
    if a.battery_level > 30 then
      (a.agv_id,
        (pyMinBy (fun t2 => a.position.distance_to t2.origin) t ts).task_id)
        :: recommend_task_assignment_fallback rest
            (pyRemove (t :: ts)
              (pyMinBy (fun t2 => a.position.distance_to t2.origin) t ts))
    else recommend_task_assignment_fallback rest (t :: ts)

theorem pyMinBy_mem (f : Task → ℝ) (best : Task) (l : List Task) :
    pyMinBy f best l ∈ best :: l := by
  induction l generalizing best with
  | nil => simp [pyMinBy]
  | cons t ts ih =>
    unfold pyMinBy
    split
    · exact List.mem_cons_of_mem _ (ih t)
    · rcases List.mem_cons.mp (ih best) with h | h
      · rw [h]
        exact List.mem_cons_self _ _
      · exact List.mem_cons_of_mem _ (List.mem_cons_of_mem _ h)

theorem pyMinBy_le (f : Task → ℝ) (best : Task) (l : List Task) :
    ∀ x ∈ best :: l, f (pyMinBy f best l) ≤ f x := by
  induction l generalizing best with
  | nil =>
    intro x hx
    rcases List.mem_cons.mp hx with h | h
    · simp [pyMinBy, h]
    · simp at h
  | cons t ts ih =>
    intro x hx
    unfold pyMinBy
    split
    · rcases List.mem_cons.mp hx with h | h
      · subst h
        calc f (pyMinBy f t ts) ≤ f t := ih t t (List.mem_cons_self _ _)
          _ ≤ f x := le_of_lt (by assumption)
      · exact ih t x h
    · rcases List.mem_cons.mp hx with h | h
      · exact h ▸ ih best best (List.mem_cons_self _ _)
      · rcases List.mem_cons.mp h with h2 | h2
        · subst h2
          calc f (pyMinBy f best ts) ≤ f best :=
              ih best best (List.mem_cons_self _ _)
            _ ≤ f x := not_lt.mp (by assumption)
        · exact ih best x (List.mem_cons_of_mem _ h2)

/-- C7: for each AGV in order with battery > 30 and a non-empty remaining
pool, the local greedy fallback assigns the remaining task minimizing the
distance from the AGV position to the task origin and removes it from
the pool; an AGV with battery ≤ 30 is skipped with the pool unchanged;
and every produced pair belongs to an AGV with battery > 30. -/
theorem c7_greedy_fallback :
    (∀ (a : AGV) (rest : List AGV) (t : Task) (ts : List Task),
      a.battery_level > 30 →
        recommend_task_assignment_fallback (a :: rest) (t :: ts)
          = (a.agv_id,
              (pyMinBy (fun t2 => a.position.distance_to t2.origin) t ts).task_id)
            :: recommend_task_assignment_fallback rest
                (pyRemove (t :: ts)
                  (pyMinBy (fun t2 => a.position.distance_to t2.origin) t ts))
        ∧ pyMinBy (fun t2 => a.position.distance_to t2.origin) t ts ∈ t :: ts
        ∧ ∀ t2 ∈ t :: ts,
            a.position.distance_to
                (pyMinBy (fun t3 => a.position.distance_to t3.origin) t ts).origin
              ≤ a.position.distance_to t2.origin) ∧
    (∀ (a : AGV) (rest : List AGV) (avail : List Task),
      ¬ a.battery_level > 30 →
        recommend_task_assignment_fallback (a :: rest) avail
          = recommend_task_assignment_fallback rest avail) ∧
    (∀ (agvs : List AGV) (ts : List Task) (p : String × String),
      p ∈ recommend_task_assignment_fallback agvs ts →
      ∃ a ∈ agvs, a.agv_id = p.1 ∧ a.battery_level > 30) := by
  refine ⟨?_, ?_, ?_⟩
  · intro a rest t ts hbat
    refine ⟨?_, pyMinBy_mem _ _ _, ?_⟩
    · simp only [recommend_task_assignment_fallback]
      rw [if_pos hbat]
    · intro t2 ht2
      exact pyMinBy_le (fun t3 => a.position.distance_to t3.origin) t ts t2 ht2
  · intro a rest avail hbat
    cases avail with
    | nil => rfl
    | cons t ts =>
      simp only [recommend_task_assignment_fallback]
      rw [if_neg hbat]
  · intro agvs
    induction agvs with
    | nil => intro ts p hp; simp [recommend_task_assignment_fallback] at hp
    | cons a rest ih =>
      intro ts p hp
      cases ts with
      | nil =>
        obtain ⟨b, hb, hid, hbat⟩ := ih [] p hp
        exact ⟨b, List.mem_cons_of_mem _ hb, hid, hbat⟩
      | cons t ts2 =>
        unfold recommend_task_assignment_fallback at hp
        split at hp
        · rcases List.mem_cons.mp hp with h | h
          · exact ⟨a, List.mem_cons_self _ _, by rw [h], by assumption⟩
          · obtain ⟨b, hb, hid, hbat⟩ := ih _ p h
            exact ⟨b, List.mem_cons_of_mem _ hb, hid, hbat⟩
        · obtain ⟨b, hb, hid, hbat⟩ := ih _ p hp
          exact ⟨b, List.mem_cons_of_mem _ hb, hid, hbat⟩

/-- C7 witness: a battery-25 AGV is skipped with the pool unchanged, and
a battery-80 AGV is assigned the single remaining task. -/
theorem c7_greedy_fallback_witness :
    recommend_task_assignment_fallback [agvBattery25] [taskArriving]
      = recommend_task_assignment_fallback [] [taskArriving] ∧
    recommend_task_assignment_fallback [agvArriving] [taskArriving]
      = [(agvArriving.agv_id, taskArriving.task_id)] := by
  constructor
  · exact c7_greedy_fallback.2.1 agvBattery25 [] [taskArriving]
      (by norm_num [agvBattery25])
  · have h := (c7_greedy_fallback.1 agvArriving [] taskArriving []
      (by norm_num [agvArriving])).1
    rw [h]
    rfl

/-- `OpenAIAnalytics.recommend_task_assignment`: on a successful LLM call
the parsed `{agv_id: task_id}` dict (`llm = some pairs`, in insertion
order) is returned as-is; any exception or malformed response
(`llm = none`) is caught and answered with the local greedy fallback.
The adapter itself never raises. -/
noncomputable def openaiRecommend (llm : Option (List (String × String)))
    (agvs : List AGV) (tasks : List Task) : List (String × String) :=
  match llm with
  | some pairs => pairs
  | none => recommend_task_assignment_fallback agvs tasks

/-- One entry of the `assignments` list built by
`FleetOrchestrationService.assign_optimal_tasks`. -/
structure Assignment where
  agv_id : String
  task_id : String
  route : Route
  estimated_time : ℝ

/-- Result dict of `assign_optimal_tasks`; the early-exit dict carries no
`total_assigned` key (`none`).  Dynamically formatted message text is
elided to its constant part. -/
structure AssignOutcome where
  assignments : List Assignment
  total_assigned : Option ℕ := none
  message : String

/-- Pointwise update of a repository map, as performed by
`CSVDataAdapter.update_agv` / `update_task` on the in-memory dict. -/
def updateMap {α : Type} (m : String → Option α) (k : String) (v : α) :
    String → Option α :=
  fun k2 => if k2 = k then some v else m k2

open Classical in
/-- The `for agv_id, task_id in recommendations.items()` loop of
`assign_optimal_tasks` (`src/domain/services.py`).  Each pair is looked
up fresh in the repositories; a pair whose AGV and task both resolve and
whose AGV `can_reach` the task destination is committed: the task gets
`assigned_agv_id`/`started_at`, the AGV gets `current_task_id` and
status MOVING, a route is requested from the route-optimizer port
(dereferencing a `None` optimizer raises), and both entities are written
back (`update_agv` stamps `last_update`).  Other pairs are skipped. -/
noncomputable def assignLoop (routeOpt : Option (AGV → Task → Route))
    (now : Timestamp) :
    List (String × String) → (String → Option AGV) → (String → Option Task) →
      Except PyError
        (List Assignment × ((String → Option AGV) × (String → Option Task)))
  | [], am, tm => Except.ok ([], (am, tm))
  | (agv_id, task_id) :: rest, am, tm =>
    match am agv_id, tm task_id with
    | some agv, some task =>
      if agv.can_reach task.destination then
        match routeOpt with
        | none => Except.error PyError.attributeError
        | some optimize =>
          match assignLoop routeOpt now rest
              (updateMap am agv_id
                { agv with current_task_id := some task_id
                           status := AGVStatus.MOVING
                           last_update := now })
              (updateMap tm task_id
                { task with assigned_agv_id := some agv_id
                            started_at := some now }) with
          | Except.ok (assigns, maps) =>
            Except.ok
              (⟨agv_id, task_id,
                  optimize
                    { agv with current_task_id := some task_id
                               status := AGVStatus.MOVING }
                    { task with assigned_agv_id := some agv_id
                                started_at := some now },
                  (optimize
                    { agv with current_task_id := some task_id
                               status := AGVStatus.MOVING }
                    { task with assigned_agv_id := some agv_id
                                started_at := some now }).estimated_time⟩
                :: assigns, maps)
          | Except.error e => Except.error e
      else assignLoop routeOpt now rest am tm
    | _, _ => assignLoop routeOpt now rest am tm

open Classical in
/-- `FleetOrchestrationService.assign_optimal_tasks`
(`src/domain/services.py`).  `analytics` is the configured
`ai_analytics` port (`none` when `startup_event` found no API key and
injected `None`); dereferencing an absent port raises `AttributeError`.
With no available AGVs or no pending tasks the early dict is returned. -/
noncomputable def assign_optimal_tasks
    (analytics : Option (List AGV → List Task → List (String × String)))
    (routeOpt : Option (AGV → Task → Route)) (now : Timestamp)
    (available_agvs : List AGV) (pending_tasks : List Task)
    (am : String → Option AGV) (tm : String → Option Task) :
    Except PyError AssignOutcome :=
  if available_agvs = [] ∨ pending_tasks = [] then
    Except.ok { assignments := []
                message := "No hay AGVs disponibles o tareas pendientes" }
  else
    match analytics with
    | none => Except.error PyError.attributeError
    | some recommend =>
      match assignLoop routeOpt now (recommend available_agvs pending_tasks)
          am tm with
      | Except.ok (assigns, _) =>
        Except.ok { assignments := assigns
                    total_assigned := some assigns.length
                    message := "Se asignaron tareas exitosamente" }
      | Except.error e => Except.error e

/-- Every committed `(agv_id, task_id)` pair of the assignment loop is
one of the recommended pairs, kept in order: the produced pair list is a
sublist of the recommendation list. -/
theorem assignLoop_pairs_sublist (routeOpt : Option (AGV → Task → Route))
    (now : Timestamp) :
    ∀ (recs : List (String × String)) (am : String → Option AGV)
      (tm : String → Option Task) (res : List Assignment)
      (maps : (String → Option AGV) × (String → Option Task)),
      assignLoop routeOpt now recs am tm = Except.ok (res, maps) →
      (res.map fun x => (x.agv_id, x.task_id)).Sublist recs := by
  intro recs
  induction recs with
  | nil =>
    intro am tm res maps h
    simp only [assignLoop] at h
    obtain ⟨h1, _⟩ := Prod.mk.injEq .. ▸ Except.ok.inj h
    subst h1
    simp
  | cons rec rest ih =>
    intro am tm res maps h
    obtain ⟨agv_id, task_id⟩ := rec
    simp only [assignLoop] at h
    split at h
    · split at h
      · split at h
        · exact absurd h (by simp)
        · split at h
          · obtain ⟨h1, _⟩ := Prod.mk.injEq .. ▸ Except.ok.inj h
            subst h1
            simp only [List.map_cons]
            exact List.Sublist.cons₂ _ (ih _ _ _ _ (by assumption))
          · exact absurd h (by simp)
      · exact List.Sublist.cons _ (ih _ _ _ _ h)
    · exact List.Sublist.cons _ (ih _ _ _ _ h)

/-- C3 (amended): within one `assign_optimal_tasks` invocation, if the
recommendation map has pairwise distinct AGV ids (as a Python dict always
does) then no AGV receives two tasks, and if it also has pairwise
distinct task ids then no task is assigned twice; a malformed map that
repeats a task id can, however, double-assign that task (see the
counterexample). -/
theorem c3_assign_injective
    (analytics : List AGV → List Task → List (String × String))
    (routeOpt : Option (AGV → Task → Route)) (now : Timestamp)
    (available_agvs : List AGV) (pending_tasks : List Task)
    (am : String → Option AGV) (tm : String → Option Task)
    (out : AssignOutcome)
    (h : assign_optimal_tasks (some analytics) routeOpt now available_agvs
        pending_tasks am tm = Except.ok out) :
    (((analytics available_agvs pending_tasks).map Prod.fst).Nodup →
      (out.assignments.map fun x => x.agv_id).Nodup) ∧
    (((analytics available_agvs pending_tasks).map Prod.snd).Nodup →
      (out.assignments.map fun x => x.task_id).Nodup) := by
  unfold assign_optimal_tasks at h
  split at h
  · obtain rfl := Except.ok.inj h
    simp
  · simp only [] at h
    split at h
    · rename_i assigns maps heq
      obtain rfl := Except.ok.inj h
      have hsub := assignLoop_pairs_sublist routeOpt now _ am tm assigns maps heq
      constructor
      · intro hnd
        have h2 := (hsub.map Prod.fst).nodup hnd
        simpa [List.map_map, Function.comp] using h2
      · intro hnd
        have h2 := (hsub.map Prod.snd).nodup hnd
        simpa [List.map_map, Function.comp] using h2
    · exact absurd h (by simp)

/-- Available AGV "AGV-1": IDLE, battery 100, no task, at the origin. -/
def agvAlpha : AGV :=
  { agv_id := "AGV-1", name := "Alpha", position := { x := 0, y := 0 },
    battery_level := 100, status := AGVStatus.IDLE }

/-- Available AGV "AGV-2": IDLE, battery 100, no task, at the origin. -/
def agvBeta : AGV :=
  { agv_id := "AGV-2", name := "Beta", position := { x := 0, y := 0 },
    battery_level := 100, status := AGVStatus.IDLE }

/-- Pending task "TSK-1" with origin and destination at the origin. -/
def taskShared : Task :=
  { task_id := "TSK-1", description := "container move",
    origin := { x := 0, y := 0 }, destination := { x := 0, y := 0 },
    priority := TaskPriority.HIGH }

/-- AGV repository holding `agvAlpha` and `agvBeta`. -/
def agvMapDouble : String → Option AGV :=
  fun s => if s = "AGV-1" then some agvAlpha
    else if s = "AGV-2" then some agvBeta else none

/-- Task repository holding only `taskShared`. -/
def taskMapDouble : String → Option Task :=
  fun s => if s = "TSK-1" then some taskShared else none

/-- A fixed route value returned by the abstract route-optimizer port. -/
def routeStub : Route :=
  { route_id := "R-1", agv_id := "AGV-1", task_id := "TSK-1",
    waypoints := [], total_distance := 0, estimated_time := 1,
    fuel_consumption := 0 }

/-- Malformed advisor recommendation mapping both AGVs to "TSK-1". -/
def recsDouble : List (String × String) :=
  [("AGV-1", "TSK-1"), ("AGV-2", "TSK-1")]

/-- The outcome `assign_optimal_tasks` produces on `recsDouble`. -/
def outcomeDouble : AssignOutcome :=
  { assignments :=
      [⟨"AGV-1", "TSK-1", routeStub, routeStub.estimated_time⟩,
        ⟨"AGV-2", "TSK-1", routeStub, routeStub.estimated_time⟩]
    total_assigned := some 2
    message := "Se asignaron tareas exitosamente" }

theorem assignDouble_eval :
    assign_optimal_tasks (some (openaiRecommend (some recsDouble)))
        (some (fun _ _ => routeStub)) 7 [agvAlpha, agvBeta] [taskShared]
        agvMapDouble taskMapDouble
      = Except.ok outcomeDouble := by
  have hr1 : agvAlpha.can_reach taskShared.destination := by
    unfold AGV.can_reach Position.distance_to agvAlpha taskShared
    norm_num
  have hr2 : agvBeta.can_reach taskShared.destination := by
    unfold AGV.can_reach Position.distance_to agvBeta taskShared
    norm_num
  unfold assign_optimal_tasks
  rw [if_neg (by simp)]
  simp only [openaiRecommend, recsDouble, assignLoop, agvMapDouble,
    taskMapDouble, updateMap, String.reduceEq, reduceIte]
  rw [if_pos hr1, if_pos hr2]
  simp [outcomeDouble]

/-- C3 counterexample: on the malformed recommendation `recsDouble`
(both AGVs mapped to "TSK-1") one invocation of `assign_optimal_tasks`
commits both pairs — task "TSK-1" appears in the produced assignment set
for two different AGVs, refuting the claimed task-side injectivity. -/
theorem c3_double_assignment_counterexample :
    assign_optimal_tasks (some (openaiRecommend (some recsDouble)))
        (some (fun _ _ => routeStub)) 7 [agvAlpha, agvBeta] [taskShared]
        agvMapDouble taskMapDouble
      = Except.ok outcomeDouble ∧
    outcomeDouble.assignments.map (fun x => x.task_id)
      = ["TSK-1", "TSK-1"] ∧
    ¬ (outcomeDouble.assignments.map fun x => x.task_id).Nodup :=
  ⟨assignDouble_eval, by simp [outcomeDouble], by simp [outcomeDouble]⟩

/-- C3 witness: the amended statement applied to the concrete run — the
recommendation keys are distinct, so no AGV id repeats in the result. -/
theorem c3_assign_injective_witness :
    (outcomeDouble.assignments.map fun x => x.agv_id).Nodup := by
  have h := c3_assign_injective (openaiRecommend (some recsDouble))
    (some (fun _ _ => routeStub)) 7 [agvAlpha, agvBeta] [taskShared]
    agvMapDouble taskMapDouble outcomeDouble assignDouble_eval
  exact h.1 (by simp [openaiRecommend, recsDouble])

/-- C2 (code bug): when no Advisor is configured at all (`startup_event`
injects `ai_analytics = None` without an API key), `assign_optimal_tasks`
dereferences the absent port and raises `AttributeError` to its caller
instead of falling back locally — here observed with one available AGV
and one pending task. -/
theorem c2_missing_advisor_attribute_error :
    assign_optimal_tasks none none 3 [agvAlpha] [taskShared] agvMapDouble
        taskMapDouble
      = Except.error PyError.attributeError := by
  unfold assign_optimal_tasks
  rw [if_neg (by simp)]

/-- Result dict of `AGVControlService.send_agv_to_position`
(`src/domain/services.py`), reduced to its distinguishing shape. -/
inductive SendResult where
  | notFound
  | notAvailable
  | cannotReach
  | success (agv : AGV) (estimated_time : ℝ)

open Classical in
/-- `AGVControlService.send_agv_to_position`: look the AGV up, reject it
when absent, not available or unable to reach the target; otherwise set
status MOVING, stamp `last_update` and persist (the CSV repository
update returns `True` absent file-system failures, which are outside
this model).  The reported `estimated_time` is
`distance(position, agv.position) / 1000 / 20 * 60` minutes. -/
noncomputable def send_agv_to_position (agvOpt : Option AGV)
    (position : Position) (now : Timestamp) : SendResult :=
  match agvOpt with
  | none => SendResult.notFound
  | some agv =>
    if agv.is_available then
      if agv.can_reach position then
        SendResult.success
          { agv with status := AGVStatus.MOVING, last_update := now }
          (position.distance_to agv.position / 1000 / 20 * 60)
      else SendResult.cannotReach
    else SendResult.notAvailable

/-- C10: a successful `send_agv_to_position` on an available AGV that
can reach the target changes only the status (to MOVING) and the
`last_update` stamp — position, battery and (absent) current task id are
untouched — and the movement tick never advances the resulting AGV,
because it carries no current task. -/
theorem c10_send_frame (agv : AGV) (pos : Position) (now : Timestamp)
    (hav : agv.is_available) (hcr : agv.can_reach pos) :
    send_agv_to_position (some agv) pos now
      = SendResult.success
          { agv with status := AGVStatus.MOVING, last_update := now }
          (pos.distance_to agv.position / 1000 / 20 * 60) ∧
    ({ agv with status := AGVStatus.MOVING, last_update := now } : AGV).position
      = agv.position ∧
    ({ agv with status := AGVStatus.MOVING, last_update := now } : AGV).battery_level
      = agv.battery_level ∧
    ({ agv with status := AGVStatus.MOVING, last_update := now } : AGV).current_task_id
      = none ∧
    ∀ (lookup : String → Option Task) (drain : ℝ) (later : Timestamp),
      (simulate_agv_movement_step
          { agv with status := AGVStatus.MOVING, last_update := now }
          lookup drain later).1.position = agv.position ∧
      (simulate_agv_movement_step
          { agv with status := AGVStatus.MOVING, last_update := now }
          lookup drain later).2 = none := by
  refine ⟨?_, rfl, rfl, hav.2.2, ?_⟩
  · simp only [send_agv_to_position]
    rw [if_pos hav, if_pos hcr]
  · intro lookup drain later
    unfold simulate_agv_movement_step
    rw [if_pos (Or.inl rfl)]
    simp [hav.2.2]

/-- The manual-move target position, 50 units from the origin. -/
def positionNear : Position := { x := 30, y := 40 }

/-- C10 witness: the frame property observed on `agvAlpha` sent to
`positionNear`. -/
theorem c10_send_frame_witness :
    send_agv_to_position (some agvAlpha) positionNear 2
      = SendResult.success
          { agvAlpha with status := AGVStatus.MOVING, last_update := 2 }
          (positionNear.distance_to agvAlpha.position / 1000 / 20 * 60) ∧
    (simulate_agv_movement_step
        { agvAlpha with status := AGVStatus.MOVING, last_update := 2 }
        lookupArriving 0.1 5).1.position = agvAlpha.position := by
  have hav : agvAlpha.is_available := ⟨rfl, by norm_num [agvAlpha], rfl⟩
  have hcr : agvAlpha.can_reach positionNear := by
    unfold AGV.can_reach Position.distance_to
    simp only [agvAlpha, positionNear]
    rw [show ((0 : ℝ) - 30) ^ 2 + ((0 : ℝ) - 40) ^ 2 = 50 ^ 2 by norm_num,
      Real.sqrt_sq (by norm_num)]
    norm_num
  have h := c10_send_frame agvAlpha positionNear 2 hav hcr
  exact ⟨h.1, (h.2.2.2.2 lookupArriving 0.1 5).1⟩

end AGVFleet
